import Mathlib

/-!
Shallow embedding of the client-side screens in `src/src/pages/Home.tsx`
(dashboard `Home`, request-creation form `NewRequest`, profile form
`Profile`) of the Blud-Dona blood-donation application, together with
theorems settling the spec's claims about them.

Modelling conventions:
* TypeScript arrays become `List`, JS numbers become `ℚ` (quantities,
  coordinates) or `Int` (epoch-millisecond timestamps for `Date` values),
  strings become `String`, `undefined`/missing values become `Option`.
* The external zod validators (`requestSchema`, `profileSchema`) are
  embedded as functions from a raw form-input record to either a list of
  field-level errors or the parsed data, mirroring the per-field checks
  and messages written in the source.
* A form submission (react-hook-form `handleSubmit` + `onSubmit`) is
  embedded as a pure function from the session user, the raw input and
  the gateway call's result to an outcome record listing the gateway
  calls made, the toasts shown, the navigations performed, the final
  submitting flag and the (untouched) form field state.
-/

/-- The `UserRole` enumeration from `@/types` as used by the screens
(`UserRole.DONOR`, `UserRole.REQUESTER`, `UserRole.ADMIN`). -/
inductive UserRole where
  | donor
  | requester
  | admin
deriving DecidableEq, Repr

/-- The `BloodType` enumeration from `@/types`; the screens only enumerate its
values generically (`Object.values(BloodType)`), so the standard eight
blood groups are used. -/
inductive BloodType where
  | aPos | aNeg | bPos | bNeg | abPos | abNeg | oPos | oNeg
deriving DecidableEq, Repr

/-- The `UrgencyLevel` enumeration (ordered low < medium < high < critical). -/
inductive UrgencyLevel where
  | low
  | medium
  | high
  | critical
deriving DecidableEq, Repr

/-- The `RequestStatus` enumeration. Only `PENDING` is referenced in
`src/src/pages/Home.tsx`; the remaining members stand in for the rest of
the enumeration so that "status fixed to pending" is a contentful fact. -/
inductive RequestStatus where
  | pending
  | matched
  | fulfilled
  | cancelled
deriving DecidableEq, Repr

/-- Location record (field order as in the placeholder literal of
`NewRequest.onSubmit`). Coordinates are JS numbers, embedded as `ℚ`. -/
structure Location where
  latitude : ℚ
  longitude : ℚ
  address : String
  city : String
  state : String
  zipCode : String
  country : String
deriving DecidableEq, Repr

/-- The session user supplied by `useAuth()`, restricted to the fields the
three screens read. -/
structure User where
  id : String
  name : String
  email : String
  role : UserRole
  phoneNumber : Option String
  bloodType : Option BloodType
  location : Option Location
deriving DecidableEq, Repr

/-- A blood request as fetched by the dashboard. -/
structure BloodRequest where
  id : String
  requesterId : String
  requesterName : String
  bloodType : BloodType
  quantity : ℚ
  urgency : UrgencyLevel
  status : RequestStatus
deriving DecidableEq, Repr

/-- An appointment as fetched by the dashboard; `date` is the scheduled
instant in epoch milliseconds (the source stores a string and compares
`new Date(appointment.date) > new Date()`). -/
structure Appointment where
  id : String
  donorId : String
  date : Int
deriving DecidableEq, Repr

/-- A notification as fetched by the dashboard. -/
structure Notification where
  id : String
  userId : String
  read : Bool
deriving DecidableEq, Repr

/-! ### Dashboard view-state derivation (`Home`, lines 79–99) -/

/-- Role-based filtering of the fetched collections (`Home`, lines 79–91):
`filteredRequests`/`filteredAppointments` start as the full collections; a
donor filters appointments by own `donorId`, a requester filters requests
by own `requesterId`, any other role filters nothing. -/
def roleFilter (u : User) (requests : List BloodRequest)
    (appointments : List Appointment) :
    List BloodRequest × List Appointment :=
  if u.role = UserRole.donor then
    (requests, appointments.filter (fun a => a.donorId = u.id))
  else if u.role = UserRole.requester then
    (requests.filter (fun r => r.requesterId = u.id), appointments)
  else
    (requests, appointments)

/-- Derivation `urgentRequests` (`Home`, lines 93–95): requests whose urgency is
`"high"` or `"critical"`. -/
def urgentRequests (filteredRequests : List BloodRequest) :
    List BloodRequest :=
  filteredRequests.filter
    (fun r => r.urgency = UrgencyLevel.high ∨ r.urgency = UrgencyLevel.critical)

/-- Derivation `upcomingAppointments` (`Home`, lines 96–98): appointments whose date is
strictly after the evaluation instant `now`. -/
def upcomingAppointments (now : Int)
    (filteredAppointments : List Appointment) : List Appointment :=
  filteredAppointments.filter (fun a => now < a.date)

/-- Derivation `unreadNotifications` (`Home`, line 99): notifications whose `read`
flag is false. -/
def unreadNotifications (notifications : List Notification) :
    List Notification :=
  notifications.filter (fun n => !n.read)

/-! ### Dashboard data fetching (`Home.fetchData`, lines 37–62) -/

/-- The dashboard's local state (`useState` hooks of `Home`). -/
structure DashboardState where
  requests : List BloodRequest
  appointments : List Appointment
  notifications : List Notification
  loading : Bool
deriving DecidableEq, Repr

/-- Initial dashboard state: empty collections, loading true. -/
def initialDashboardState : DashboardState :=
  { requests := [], appointments := [], notifications := [], loading := true }

/-- Result of running `fetchData`: the resulting state and whether an error
was logged to the console. -/
structure FetchOutcome where
  state : DashboardState
  loggedError : Bool
deriving DecidableEq, Repr

/-- Function `Home.fetchData` (lines 37–62) as a function of the results of the
three remote calls. `Promise.all` of the requests/appointments fetches
rejects when either rejects; the notification fetch runs only when
`user.id` is truthy (nonempty) and its result is stored before
requests/appointments are; any rejection is caught and logged, and the
`finally` block always clears the loading flag. -/
def fetchData (user : Option User)
    (reqRes : Except String (List BloodRequest))
    (apptRes : Except String (List Appointment))
    (notifRes : Except String (List Notification))
    (s : DashboardState) : FetchOutcome :=
  match user with
  | none => { state := { s with loading := false }, loggedError := false }
  | some u =>
    match reqRes, apptRes with
    | Except.ok reqs, Except.ok appts =>
      if u.id ≠ "" then
        match notifRes with
        | Except.ok notifs =>
          { state := { s with notifications := notifs, requests := reqs,
                              appointments := appts, loading := false },
            loggedError := false }
        | Except.error _ =>
          { state := { s with loading := false }, loggedError := true }
      else
        { state := { s with requests := reqs, appointments := appts,
                            loading := false },
          loggedError := false }
    | _, _ => { state := { s with loading := false }, loggedError := true }

/-! ### Dashboard stat cards (`Home`, lines 118–174) -/

/-- Title of the third stat card (`Home`, line 158). -/
def statCard3Title (u : User) : String :=
  if u.role = UserRole.admin then "Total Users" else "Notifications"

/-- Displayed value of the third stat card (`Home`, line 167): the literal
string `"4"` for an administrator, otherwise the unread-notification
count. -/
def statCard3Value (u : User) (notifications : List Notification) : String :=
  if u.role = UserRole.admin then "4"
  else toString (unreadNotifications notifications).length

/-! ### Request-creation form (`NewRequest`, lines 511–585) -/

/-- A field-level validation error (field name plus the message literal
from the zod schema). -/
structure FieldError where
  field : String
  message : String
deriving DecidableEq, Repr

/-- Raw input of the request-creation form. `bloodType` and `urgency` are
`Option` because the selects start unselected (zod `nativeEnum` with a
`required_error`); `quantity` always carries a number (the slider). -/
structure RequestFormRaw where
  bloodType : Option BloodType
  quantity : ℚ
  urgency : Option UrgencyLevel
  notes : Option String
  expireAt : Option String
deriving DecidableEq, Repr

/-- Parsed output of `requestSchema`. -/
structure RequestFormData where
  bloodType : BloodType
  quantity : ℚ
  urgency : UrgencyLevel
  notes : Option String
  expireAt : Option String
deriving DecidableEq, Repr

/-- The issues raised by `requestSchema` (lines 511–525): a missing blood
type, a quantity below 1 or above 10 (note: `z.number().min(1).max(10)`,
with no integrality check), and a missing urgency level. `notes` and
`expireAt` are `z.string().optional()` and never raise an issue. -/
def requestSchemaErrors (raw : RequestFormRaw) : List FieldError :=
  (match raw.bloodType with
   | none => [⟨"bloodType", "Please select a blood type"⟩]
   | some _ => []) ++
  (if raw.quantity < 1 then
    [⟨"quantity", "Quantity must be at least 1 unit"⟩]
   else []) ++
  (if 10 < raw.quantity then
    [⟨"quantity", "Quantity cannot exceed 10 units"⟩]
   else []) ++
  (match raw.urgency with
   | none => [⟨"urgency", "Please select an urgency level"⟩]
   | some _ => [])

/-- Parsing with `requestSchema`: success exactly when no issue is raised. -/
def requestSchemaCheck (raw : RequestFormRaw) :
    Except (List FieldError) RequestFormData :=
  match raw.bloodType, raw.urgency, requestSchemaErrors raw with
  | some bt, some ur, [] =>
    Except.ok { bloodType := bt, quantity := raw.quantity, urgency := ur,
                notes := raw.notes, expireAt := raw.expireAt }
  | _, _, _ => Except.error (requestSchemaErrors raw)

/-- Whether `requestSchema` accepts the raw input. -/
def requestAccepts (raw : RequestFormRaw) : Bool :=
  match requestSchemaCheck raw with
  | Except.ok _ => true
  | Except.error _ => false

/-- A toast notification (non-blocking; `destructive` is the error
variant). -/
structure Toast where
  title : String
  description : String
  destructive : Bool
deriving DecidableEq, Repr

/-- The placeholder location used by `NewRequest.onSubmit` when the user
has no stored location (lines 556–564). -/
def placeholderLocation : Location :=
  { latitude := 0, longitude := 0, address := "Unknown", city := "Unknown",
    state := "Unknown", zipCode := "00000", country := "Unknown" }

/-- The payload passed to `api.createBloodRequest` (lines 550–568). The
`expireAt` date is kept as its source string; JS truthiness makes an empty
string behave like a missing one. -/
structure CreateRequestPayload where
  requesterId : String
  requesterName : String
  bloodType : BloodType
  quantity : ℚ
  urgency : UrgencyLevel
  location : Location
  status : RequestStatus
  notes : Option String
  expireAt : Option String
deriving DecidableEq, Repr

/-- Observable outcome of a request-form submission: gateway calls made,
toasts shown, navigations performed, the final `isSubmitting` flag, and
the form's field state afterwards (the source never resets the form). -/
structure RequestSubmitOutcome where
  fieldErrors : List FieldError
  createCalls : List CreateRequestPayload
  toasts : List Toast
  navigations : List String
  isSubmitting : Bool
  formAfter : RequestFormRaw
deriving DecidableEq, Repr

/-- Function `NewRequest.onSubmit` (lines 544–585) on already-validated data:
returns immediately when there is no user; otherwise makes exactly one
create call with status `PENDING` and the user's location (or the
placeholder), then on success toasts and navigates to `/requests`, on
failure toasts the destructive error; `finally` resets `isSubmitting`. -/
def newRequestOnSubmit (user : Option User) (raw : RequestFormRaw)
    (d : RequestFormData) (createRes : Except Unit Unit) :
    RequestSubmitOutcome :=
  match user with
  | none =>
    { fieldErrors := [], createCalls := [], toasts := [], navigations := [],
      isSubmitting := false, formAfter := raw }
  | some u =>
    let payload : CreateRequestPayload :=
      { requesterId := u.id, requesterName := u.name,
        bloodType := d.bloodType, quantity := d.quantity,
        urgency := d.urgency,
        location := u.location.getD placeholderLocation,
        status := RequestStatus.pending, notes := d.notes,
        expireAt := d.expireAt.bind (fun s => if s = "" then none else some s) }
    match createRes with
    | Except.ok _ =>
      { fieldErrors := [], createCalls := [payload],
        toasts := [⟨"Request created",
                    "Your blood request has been successfully created.",
                    false⟩],
        navigations := ["/requests"], isSubmitting := false,
        formAfter := raw }
    | Except.error _ =>
      { fieldErrors := [], createCalls := [payload],
        toasts := [⟨"Error", "There was a problem creating your request.",
                    true⟩],
        navigations := [], isSubmitting := false, formAfter := raw }

/-- The whole submission pipeline (`form.handleSubmit(onSubmit)`): invalid
input never reaches `onSubmit` and only surfaces field errors. -/
def newRequestFormSubmit (user : Option User) (raw : RequestFormRaw)
    (createRes : Except Unit Unit) : RequestSubmitOutcome :=
  match requestSchemaCheck raw with
  | Except.error errs =>
    { fieldErrors := errs, createCalls := [], toasts := [],
      navigations := [], isSubmitting := false, formAfter := raw }
  | Except.ok d => newRequestOnSubmit user raw d createRes

/-- The `min` attribute of the expiry-date input widget (lines 587–590,
726): tomorrow, i.e. the day after the evaluation day, measured in whole
days. This is only a widget hint, not part of `requestSchema`. -/
def expireAtInputMinDay (today : Nat) : Nat := today + 1

/-! ### Profile form (`Profile`, lines 858–927) -/

/-- Raw input of the profile form. `name` and `email` always carry strings
(the form initialises them from the user with `""` fallbacks); the rest
are optional. -/
structure ProfileFormRaw where
  name : String
  email : String
  phoneNumber : Option String
  address : Option String
  city : Option String
  state : Option String
  zipCode : Option String
  country : Option String
  bloodType : Option BloodType
deriving DecidableEq, Repr

/-- Splits a character list at every occurrence of the separator
(an executable stand-in for `String.splitOn` over `String.toList`). -/
def splitOnChar (sep : Char) : List Char → List (List Char)
  | [] => [[]]
  | c :: cs =>
    if c = sep then [] :: splitOnChar sep cs
    else
      match splitOnChar sep cs with
      | [] => [[c]]
      | g :: gs => (c :: g) :: gs

/-- Embedding of the external `z.string().email()` check used by
`profileSchema`: a single `@` separating a nonempty space-free local part
from a domain made of at least two nonempty dot-separated labels. The
theorems below only depend on the schema's gating on this predicate, not
on its fine structure. -/
def isValidEmail (s : String) : Bool :=
  match splitOnChar '@' s.toList with
  | [lp, domain] =>
    !lp.isEmpty && !lp.contains ' ' &&
    (let labels := splitOnChar '.' domain
     decide (2 ≤ labels.length) && labels.all (fun l => !l.isEmpty))
  | _ => false

/-- The issues raised by `profileSchema` (lines 858–868): a name shorter
than 2 characters and an email not matching the email format; every other
field is optional and unchecked. -/
def profileSchemaErrors (raw : ProfileFormRaw) : List FieldError :=
  (if raw.name.length < 2 then
    [⟨"name", "Name must be at least 2 characters"⟩]
   else []) ++
  (if isValidEmail raw.email then []
   else [⟨"email", "Please enter a valid email"⟩])

/-- Whether `profileSchema` accepts the raw input (the parsed data has the
same shape as the raw input). -/
def profileAccepts (raw : ProfileFormRaw) : Bool :=
  profileSchemaErrors raw = []

/-- The location object of the `api.updateUser` payload (lines 903–910):
the existing user location (or a bare `{latitude: 0, longitude: 0}`)
spread first, then every address field overwritten with the form value,
which may be missing. -/
structure UpdateLocation where
  latitude : ℚ
  longitude : ℚ
  address : Option String
  city : Option String
  state : Option String
  zipCode : Option String
  country : Option String
deriving DecidableEq, Repr

/-- The partial-user payload passed to `api.updateUser` (lines 899–912). -/
structure UpdateUserPayload where
  name : String
  email : String
  phoneNumber : Option String
  location : UpdateLocation
  bloodType : Option BloodType
deriving DecidableEq, Repr

/-- The payload `Profile.onSubmit` builds from the user record and the
validated form data (lines 899–912). -/
def profileUpdatePayload (u : User) (d : ProfileFormRaw) : UpdateUserPayload :=
  { name := d.name, email := d.email, phoneNumber := d.phoneNumber,
    location :=
      { latitude := (u.location.map Location.latitude).getD 0,
        longitude := (u.location.map Location.longitude).getD 0,
        address := d.address, city := d.city, state := d.state,
        zipCode := d.zipCode, country := d.country },
    bloodType := d.bloodType }

/-- Observable outcome of a profile-form submission. -/
structure ProfileSubmitOutcome where
  fieldErrors : List FieldError
  updateCalls : List (String × UpdateUserPayload)
  toasts : List Toast
  isUpdating : Bool
  formAfter : ProfileFormRaw
deriving DecidableEq, Repr

/-- Function `Profile.onSubmit` (lines 892–927) on validated data: returns
immediately without a user; otherwise calls `api.updateUser(user.id, …)`
once, toasting success or a destructive failure; `finally` resets
`isUpdating`. -/
def profileOnSubmit (user : Option User) (raw : ProfileFormRaw)
    (d : ProfileFormRaw) (updateRes : Except Unit Unit) :
    ProfileSubmitOutcome :=
  match user with
  | none =>
    { fieldErrors := [], updateCalls := [], toasts := [],
      isUpdating := false, formAfter := raw }
  | some u =>
    match updateRes with
    | Except.ok _ =>
      { fieldErrors := [], updateCalls := [(u.id, profileUpdatePayload u d)],
        toasts := [⟨"Profile updated",
                    "Your profile information has been updated successfully.",
                    false⟩],
        isUpdating := false, formAfter := raw }
    | Except.error _ =>
      { fieldErrors := [], updateCalls := [(u.id, profileUpdatePayload u d)],
        toasts := [⟨"Update failed",
                    "There was a problem updating your profile.", true⟩],
        isUpdating := false, formAfter := raw }

/-- The whole profile submission pipeline (`form.handleSubmit(onSubmit)`):
invalid input never reaches `onSubmit`. -/
def profileFormSubmit (user : Option User) (raw : ProfileFormRaw)
    (updateRes : Except Unit Unit) : ProfileSubmitOutcome :=
  if profileSchemaErrors raw = [] then profileOnSubmit user raw raw updateRes
  else
    { fieldErrors := profileSchemaErrors raw, updateCalls := [], toasts := [],
      isUpdating := false, formAfter := raw }

/-! ### Helper lemmas -/

/-- Schema `requestSchema` raises no issue exactly when blood type and urgency are
present and the quantity lies in [1, 10]. -/
theorem requestSchemaErrors_eq_nil_iff (raw : RequestFormRaw) :
    requestSchemaErrors raw = [] ↔
      (∃ bt, raw.bloodType = some bt) ∧ 1 ≤ raw.quantity ∧
        raw.quantity ≤ 10 ∧ ∃ ur, raw.urgency = some ur := by
  obtain ⟨bt, q, ur, nt, ex⟩ := raw
  simp only [requestSchemaErrors]
  cases bt <;> cases ur <;>
    simp [List.append_eq_nil, ite_eq_right_iff, not_lt]

/-- When `requestSchema` raises no issue, parsing succeeds with the evident
data. -/
theorem requestSchemaCheck_of_no_errors (raw : RequestFormRaw)
    (h : requestSchemaErrors raw = []) :
    ∃ bt ur, raw.bloodType = some bt ∧ raw.urgency = some ur ∧
      requestSchemaCheck raw =
        Except.ok { bloodType := bt, quantity := raw.quantity, urgency := ur,
                    notes := raw.notes, expireAt := raw.expireAt } := by
  obtain ⟨⟨bt, hbt⟩, h1, h2, ur, hur⟩ :=
    (requestSchemaErrors_eq_nil_iff raw).mp h
  refine ⟨bt, ur, hbt, hur, ?_⟩
  unfold requestSchemaCheck
  rw [hbt, hur, h]

/-- When `requestSchema` raises an issue, parsing fails with exactly the
raised issues. -/
theorem requestSchemaCheck_of_errors (raw : RequestFormRaw)
    (h : requestSchemaErrors raw ≠ []) :
    requestSchemaCheck raw = Except.error (requestSchemaErrors raw) := by
  unfold requestSchemaCheck
  cases hbt : raw.bloodType <;> cases hur : raw.urgency <;>
    cases herr : requestSchemaErrors raw <;>
      first
        | exact absurd herr h
        | rfl

/-- Acceptance by `requestSchema` is equivalent to raising no issue. -/
theorem requestAccepts_iff_no_errors (raw : RequestFormRaw) :
    requestAccepts raw = true ↔ requestSchemaErrors raw = [] := by
  constructor
  · intro h
    by_contra hne
    have := requestSchemaCheck_of_errors raw hne
    simp [requestAccepts, this] at h
  · intro h
    obtain ⟨bt, ur, _, _, hck⟩ := requestSchemaCheck_of_no_errors raw h
    simp [requestAccepts, hck]

/-! ### Claim theorems -/

/-- Claim C1: the dashboard's role-based view derivation gives a donor the
unfiltered request collection and only the appointments whose `donorId`
equals the user's id; a requester only the requests whose `requesterId`
equals the user's id and the unfiltered appointment collection; an
administrator both collections unfiltered. -/
theorem roleFilter_role_spec (u : User) (reqs : List BloodRequest)
    (appts : List Appointment) :
    (u.role = UserRole.donor →
      roleFilter u reqs appts =
        (reqs, appts.filter (fun a => a.donorId = u.id))) ∧
    (u.role = UserRole.requester →
      roleFilter u reqs appts =
        (reqs.filter (fun r => r.requesterId = u.id), appts)) ∧
    (u.role = UserRole.admin → roleFilter u reqs appts = (reqs, appts)) := by
  refine ⟨fun h => ?_, fun h => ?_, fun h => ?_⟩ <;> simp [roleFilter, h]

/-- Witness for C1: a concrete donor keeps all requests and only their own
appointment. -/
theorem roleFilter_role_spec_witness :
    roleFilter
        { id := "1", name := "Dona", email := "d@x.co",
          role := UserRole.donor, phoneNumber := none, bloodType := none,
          location := none }
        [{ id := "r1", requesterId := "2", requesterName := "H",
           bloodType := BloodType.aPos, quantity := 2,
           urgency := UrgencyLevel.low, status := RequestStatus.pending }]
        [{ id := "a1", donorId := "1", date := 5 },
         { id := "a2", donorId := "2", date := 5 }] =
      ([{ id := "r1", requesterId := "2", requesterName := "H",
          bloodType := BloodType.aPos, quantity := 2,
          urgency := UrgencyLevel.low, status := RequestStatus.pending }],
       [{ id := "a1", donorId := "1", date := 5 }]) := by
  have h := (roleFilter_role_spec
    { id := "1", name := "Dona", email := "d@x.co", role := UserRole.donor,
      phoneNumber := none, bloodType := none, location := none }
    [{ id := "r1", requesterId := "2", requesterName := "H",
       bloodType := BloodType.aPos, quantity := 2,
       urgency := UrgencyLevel.low, status := RequestStatus.pending }]
    [{ id := "a1", donorId := "1", date := 5 },
     { id := "a2", donorId := "2", date := 5 }]).1 rfl
  rw [h]
  decide

/-- Claim C5: the urgent-request derivation keeps a request exactly when
its urgency is high or critical, and excludes low/medium requests. -/
theorem urgentRequests_iff_high_critical (reqs : List BloodRequest)
    (r : BloodRequest) :
    (r ∈ urgentRequests reqs ↔
      r ∈ reqs ∧
        (r.urgency = UrgencyLevel.high ∨ r.urgency = UrgencyLevel.critical)) ∧
    ((r.urgency = UrgencyLevel.low ∨ r.urgency = UrgencyLevel.medium) →
      r ∉ urgentRequests reqs) := by
  constructor
  · simp [urgentRequests, List.mem_filter]
  · rintro (h | h) hmem <;>
      simp [urgentRequests, List.mem_filter, h] at hmem

/-- Witness for C5: a concrete low-urgency request is not in the urgent
derivation of a list containing it. -/
theorem urgentRequests_iff_high_critical_witness :
    { id := "r1", requesterId := "2", requesterName := "H",
      bloodType := BloodType.aPos, quantity := 2,
      urgency := UrgencyLevel.low, status := RequestStatus.pending } ∉
      urgentRequests
        [{ id := "r1", requesterId := "2", requesterName := "H",
           bloodType := BloodType.aPos, quantity := 2,
           urgency := UrgencyLevel.low, status := RequestStatus.pending }] :=
  (urgentRequests_iff_high_critical _ _).2 (Or.inl rfl)

/-- Claim C6: the upcoming-appointment derivation keeps an appointment
exactly when its scheduled date is strictly after the evaluation instant;
one scheduled exactly at the evaluation instant is excluded. -/
theorem upcomingAppointments_strictly_future (now : Int)
    (appts : List Appointment) (a : Appointment) :
    (a ∈ upcomingAppointments now appts ↔ a ∈ appts ∧ now < a.date) ∧
    (a.date = now → a ∉ upcomingAppointments now appts) := by
  constructor
  · simp [upcomingAppointments, List.mem_filter]
  · intro h hmem
    simp [upcomingAppointments, List.mem_filter, h] at hmem

/-- Witness for C6: a concrete appointment scheduled exactly at the
evaluation instant is excluded. -/
theorem upcomingAppointments_strictly_future_witness :
    { id := "a1", donorId := "1", date := 100 } ∉
      upcomingAppointments 100 [{ id := "a1", donorId := "1", date := 100 }] :=
  (upcomingAppointments_strictly_future 100 _ _).2 rfl

/-- Claim C8: with a user present, when the requests fetch, the
appointments fetch, or (when the user id is truthy) the notifications
fetch rejects, the failure is logged, the dashboard state keeps all three
collections empty, and the loading flag is cleared. -/
theorem fetchData_reject_degrades (u : User)
    (r : Except String (List BloodRequest))
    (a : Except String (List Appointment))
    (n : Except String (List Notification))
    (h : (∃ e, r = Except.error e) ∨ (∃ e, a = Except.error e) ∨
         (u.id ≠ "" ∧ ∃ e, n = Except.error e)) :
    (fetchData (some u) r a n initialDashboardState).state =
      { requests := [], appointments := [], notifications := [],
        loading := false } ∧
    (fetchData (some u) r a n initialDashboardState).loggedError = true := by
  rcases h with ⟨e, he⟩ | ⟨e, he⟩ | ⟨hid, e, he⟩
  · subst he
    cases a <;> simp [fetchData, initialDashboardState]
  · subst he
    cases r <;> simp [fetchData, initialDashboardState]
  · subst he
    cases r with
    | error _ => simp [fetchData, initialDashboardState]
    | ok reqs =>
      cases a with
      | error _ => simp [fetchData, initialDashboardState]
      | ok appts => simp [fetchData, initialDashboardState, hid]

/-- Witness for C8: a concrete rejected requests fetch leaves the
dashboard state empty with loading cleared and the error logged. -/
theorem fetchData_reject_degrades_witness :
    (fetchData
        (some { id := "1", name := "Dona", email := "d@x.co",
                role := UserRole.donor, phoneNumber := none,
                bloodType := none, location := none })
        (Except.error "network down") (Except.ok []) (Except.ok [])
        initialDashboardState).state =
      { requests := [], appointments := [], notifications := [],
        loading := false } ∧
    (fetchData
        (some { id := "1", name := "Dona", email := "d@x.co",
                role := UserRole.donor, phoneNumber := none,
                bloodType := none, location := none })
        (Except.error "network down") (Except.ok []) (Except.ok [])
        initialDashboardState).loggedError = true :=
  fetchData_reject_degrades _ _ _ _ (Or.inl ⟨"network down", rfl⟩)

/-- Claim C10: for an administrator the third stat card is titled "Total
Users" and displays the literal string "4", independent of the fetched
notifications (the card reads no fetched collection at all and no user
collection is fetched). -/
theorem adminStatCard_constant_four (u : User) (ns : List Notification)
    (h : u.role = UserRole.admin) :
    statCard3Value u ns = "4" ∧ statCard3Title u = "Total Users" := by
  simp [statCard3Value, statCard3Title, h]

/-- Witness for C10: a concrete administrator with ten unread
notifications still sees "4". -/
theorem adminStatCard_constant_four_witness :
    statCard3Value
        { id := "9", name := "Adm", email := "a@x.co",
          role := UserRole.admin, phoneNumber := none, bloodType := none,
          location := none }
        (List.replicate 10 { id := "n", userId := "9", read := false }) =
      "4" :=
  (adminStatCard_constant_four _
    (List.replicate 10 { id := "n", userId := "9", read := false }) rfl).1

/-- Counterexample to claim C2 as stated: `requestSchema` uses
`z.number().min(1).max(10)` with no integrality check, so it accepts the
non-integer quantity 5/2 (which equals no integer); integrality is imposed
only by the slider widget. -/
theorem requestSchema_accepts_noninteger :
    requestAccepts
        { bloodType := some BloodType.aPos, quantity := 5/2,
          urgency := some UrgencyLevel.medium, notes := none,
          expireAt := none } = true ∧
    ∀ z : ℤ, (5/2 : ℚ) ≠ (z : ℚ) := by
  constructor
  · rw [requestAccepts_iff_no_errors, requestSchemaErrors_eq_nil_iff]
    exact ⟨⟨_, rfl⟩, by norm_num, by norm_num, _, rfl⟩
  · intro z hz
    have h2 : (2 : ℤ) < z := by
      have : (2 : ℚ) < (z : ℚ) := by rw [← hz]; norm_num
      exact_mod_cast this
    have h3 : z < 3 := by
      have : (z : ℚ) < (3 : ℚ) := by rw [← hz]; norm_num
      exact_mod_cast this
    omega

/-- Claim C2 (amended): `requestSchema` requires quantity to be a number
in the inclusive bounds 1–10 (not necessarily an integer) and blood type
and urgency to be selected; every input with quantity outside [1,10] or a
missing blood type or urgency is blocked with a field-level error and no
create call reaches the Data Gateway. -/
theorem requestForm_invalid_blocked (user : Option User)
    (raw : RequestFormRaw) (createRes : Except Unit Unit)
    (h : ¬(1 ≤ raw.quantity ∧ raw.quantity ≤ 10) ∨ raw.bloodType = none ∨
         raw.urgency = none) :
    (newRequestFormSubmit user raw createRes).fieldErrors ≠ [] ∧
    (newRequestFormSubmit user raw createRes).createCalls = [] := by
  have hne : requestSchemaErrors raw ≠ [] := by
    intro hnil
    obtain ⟨⟨bt, hbt⟩, h1, h2, ur, hur⟩ :=
      (requestSchemaErrors_eq_nil_iff raw).mp hnil
    rcases h with h | h | h
    · exact h ⟨h1, h2⟩
    · rw [h] at hbt; cases hbt
    · rw [h] at hur; cases hur
  have hck := requestSchemaCheck_of_errors raw hne
  unfold newRequestFormSubmit
  rw [hck]
  exact ⟨hne, rfl⟩

/-- Witness for the amended C2: quantity 11 on an otherwise complete input
is rejected with a field error and no gateway call. -/
theorem requestForm_invalid_blocked_witness :
    (newRequestFormSubmit
        (some { id := "2", name := "Req", email := "r@x.co",
                role := UserRole.requester, phoneNumber := none,
                bloodType := none, location := none })
        { bloodType := some BloodType.aPos, quantity := 11,
          urgency := some UrgencyLevel.medium, notes := none,
          expireAt := none }
        (Except.ok ())).fieldErrors ≠ [] ∧
    (newRequestFormSubmit
        (some { id := "2", name := "Req", email := "r@x.co",
                role := UserRole.requester, phoneNumber := none,
                bloodType := none, location := none })
        { bloodType := some BloodType.aPos, quantity := 11,
          urgency := some UrgencyLevel.medium, notes := none,
          expireAt := none }
        (Except.ok ())).createCalls = [] :=
  requestForm_invalid_blocked _ _ _ (Or.inl (by decide))

/-- Claim C3: every input accepted by `requestSchema`, when submitted with
a session user, produces exactly one create call whose status is
`PENDING` and whose location is the user's stored location when present
and the fixed "Unknown"/zero placeholder when absent. -/
theorem newRequest_valid_submit (u : User) (raw : RequestFormRaw)
    (createRes : Except Unit Unit) (h : requestAccepts raw = true) :
    ∃ p : CreateRequestPayload,
      (newRequestFormSubmit (some u) raw createRes).createCalls = [p] ∧
      p.status = RequestStatus.pending ∧
      p.location = u.location.getD
        { latitude := 0, longitude := 0, address := "Unknown",
          city := "Unknown", state := "Unknown", zipCode := "00000",
          country := "Unknown" } := by
  obtain ⟨bt, ur, hbt, hur, hck⟩ := requestSchemaCheck_of_no_errors raw
    ((requestAccepts_iff_no_errors raw).mp h)
  unfold newRequestFormSubmit
  rw [hck]
  unfold newRequestOnSubmit
  cases createRes with
  | ok _ => exact ⟨_, rfl, rfl, rfl⟩
  | error _ => exact ⟨_, rfl, rfl, rfl⟩

/-- Witness for C3: a concrete requester without a stored location gets
one pending create call at the placeholder location. -/
theorem newRequest_valid_submit_witness :
    ∃ p : CreateRequestPayload,
      (newRequestFormSubmit
          (some { id := "2", name := "Req", email := "r@x.co",
                  role := UserRole.requester, phoneNumber := none,
                  bloodType := none, location := none })
          { bloodType := some BloodType.oNeg, quantity := 3,
            urgency := some UrgencyLevel.high, notes := none,
            expireAt := none }
          (Except.ok ())).createCalls = [p] ∧
      p.status = RequestStatus.pending ∧
      p.location = Option.getD none
        { latitude := 0, longitude := 0, address := "Unknown",
          city := "Unknown", state := "Unknown", zipCode := "00000",
          country := "Unknown" } :=
  newRequest_valid_submit _ _ _ (by decide)

/-- Claim C7: `requestSchema` does not constrain `expireAt` at all —
acceptance is unchanged under replacing it by any optional string,
including date strings earlier than tomorrow — while the input widget's
`min` hint is the day after the evaluation day. -/
theorem expireAt_unvalidated_any_string (raw : RequestFormRaw)
    (e : Option String) (today : ℕ) :
    requestAccepts { raw with expireAt := e } = requestAccepts raw ∧
    expireAtInputMinDay today = today + 1 := by
  refine ⟨?_, rfl⟩
  have h : requestSchemaErrors { raw with expireAt := e } =
      requestSchemaErrors raw := rfl
  by_cases hnil : requestSchemaErrors raw = []
  · obtain ⟨bt, ur, hbt, hur, hck⟩ := requestSchemaCheck_of_no_errors raw hnil
    obtain ⟨bt2, ur2, hbt2, hur2, hck2⟩ :=
      requestSchemaCheck_of_no_errors { raw with expireAt := e } (h.trans hnil)
    simp [requestAccepts, hck, hck2]
  · have hck := requestSchemaCheck_of_errors raw hnil
    have hck2 := requestSchemaCheck_of_errors { raw with expireAt := e }
      (fun hc => hnil (h.symm.trans hc ▸ rfl))
    simp [requestAccepts, hck, hck2]

/-- Claim C9: when the create call rejects on an accepted input, the only
user-visible effect is one destructive (non-blocking) toast: no
navigation happens, the form's field state is unchanged, the submitting
flag is back to false, and the single create call had been made. -/
theorem createReject_toast_preserves_form (u : User) (raw : RequestFormRaw)
    (h : requestAccepts raw = true) :
    (newRequestFormSubmit (some u) raw (Except.error ())).toasts =
        [{ title := "Error",
           description := "There was a problem creating your request.",
           destructive := true }] ∧
    (newRequestFormSubmit (some u) raw (Except.error ())).navigations = [] ∧
    (newRequestFormSubmit (some u) raw (Except.error ())).formAfter = raw ∧
    (newRequestFormSubmit (some u) raw (Except.error ())).isSubmitting
        = false ∧
    (newRequestFormSubmit (some u) raw
        (Except.error ())).createCalls.length = 1 := by
  obtain ⟨bt, ur, hbt, hur, hck⟩ := requestSchemaCheck_of_no_errors raw
    ((requestAccepts_iff_no_errors raw).mp h)
  unfold newRequestFormSubmit
  rw [hck]
  exact ⟨rfl, rfl, rfl, rfl, rfl⟩

/-- Witness for C9: a concrete accepted input whose create call rejects
shows the destructive toast and nothing else. -/
theorem createReject_toast_preserves_form_witness :
    (newRequestFormSubmit
        (some { id := "2", name := "Req", email := "r@x.co",
                role := UserRole.requester, phoneNumber := none,
                bloodType := none, location := none })
        { bloodType := some BloodType.bNeg, quantity := 2,
          urgency := some UrgencyLevel.critical, notes := some "asap",
          expireAt := none }
        (Except.error ())).navigations = [] ∧
    (newRequestFormSubmit
        (some { id := "2", name := "Req", email := "r@x.co",
                role := UserRole.requester, phoneNumber := none,
                bloodType := none, location := none })
        { bloodType := some BloodType.bNeg, quantity := 2,
          urgency := some UrgencyLevel.critical, notes := some "asap",
          expireAt := none }
        (Except.error ())).formAfter =
      { bloodType := some BloodType.bNeg, quantity := 2,
        urgency := some UrgencyLevel.critical, notes := some "asap",
        expireAt := none } :=
  ⟨(createReject_toast_preserves_form _ _ (by decide)).2.1,
   (createReject_toast_preserves_form _ _ (by decide)).2.2.1⟩

/-- Counterexample to claim C4 as stated: the update payload does not
contain only the schema's fields — it carries the stored location's
coordinates. Two user records that differ only in stored latitude,
submitting the same accepted input, produce update payloads with
latitudes 7 and 8 respectively. -/
theorem profilePayload_carries_coordinates :
    profileAccepts
        { name := "Al", email := "a@b.co", phoneNumber := none,
          address := none, city := none, state := none, zipCode := none,
          country := none, bloodType := none } = true ∧
    (profileFormSubmit
        (some { id := "3", name := "Al", email := "a@b.co",
                role := UserRole.donor, phoneNumber := none,
                bloodType := none,
                location := some
                  { latitude := 7, longitude := 0, address := "x",
                    city := "y", state := "z", zipCode := "w",
                    country := "v" } })
        { name := "Al", email := "a@b.co", phoneNumber := none,
          address := none, city := none, state := none, zipCode := none,
          country := none, bloodType := none }
        (Except.ok ())).updateCalls.map
          (fun c => c.2.location.latitude) = [7] ∧
    (profileFormSubmit
        (some { id := "3", name := "Al", email := "a@b.co",
                role := UserRole.donor, phoneNumber := none,
                bloodType := none,
                location := some
                  { latitude := 8, longitude := 0, address := "x",
                    city := "y", state := "z", zipCode := "w",
                    country := "v" } })
        { name := "Al", email := "a@b.co", phoneNumber := none,
          address := none, city := none, state := none, zipCode := none,
          country := none, bloodType := none }
        (Except.ok ())).updateCalls.map
          (fun c => c.2.location.latitude) = [8] := by
  refine ⟨by decide, by decide, by decide⟩

/-- Claim C4 (amended): the profile form blocks every input whose name is
shorter than 2 characters or whose email fails the email check, with a
field-level error and no gateway call; every accepted input produces
exactly one update call whose payload holds exactly the schema's fields
plus the location coordinates carried over from the existing user record
(0/0 when no location is stored). -/
theorem profileForm_validate_update (u : User) (raw : ProfileFormRaw)
    (updateRes : Except Unit Unit) :
    ((raw.name.length < 2 ∨ isValidEmail raw.email = false) →
      (profileFormSubmit (some u) raw updateRes).fieldErrors ≠ [] ∧
      (profileFormSubmit (some u) raw updateRes).updateCalls = []) ∧
    (profileAccepts raw = true →
      (profileFormSubmit (some u) raw updateRes).updateCalls =
        [(u.id,
          { name := raw.name, email := raw.email,
            phoneNumber := raw.phoneNumber,
            location :=
              { latitude := (u.location.map Location.latitude).getD 0,
                longitude := (u.location.map Location.longitude).getD 0,
                address := raw.address, city := raw.city,
                state := raw.state, zipCode := raw.zipCode,
                country := raw.country },
            bloodType := raw.bloodType })]) := by
  constructor
  · intro h
    have hne : profileSchemaErrors raw ≠ [] := by
      intro hnil
      simp only [profileSchemaErrors, List.append_eq_nil] at hnil
      rcases h with h | h
      · rw [if_pos h] at hnil
        exact absurd hnil.1 (by simp)
      · rw [h] at hnil
        exact absurd hnil.2 (by simp)
    unfold profileFormSubmit
    rw [if_neg hne]
    exact ⟨hne, rfl⟩
  · intro h
    have hnil : profileSchemaErrors raw = [] := by
      simpa [profileAccepts] using h
    unfold profileFormSubmit
    rw [if_pos hnil]
    unfold profileOnSubmit
    cases updateRes <;> rfl

/-- Witness for the amended C4: a concrete accepted input on a user with
stored coordinates (7, 3) yields one update call carrying exactly the
form fields plus those coordinates. -/
theorem profileForm_validate_update_witness :
    (profileFormSubmit
        (some { id := "3", name := "Old Name", email := "old@mail.org",
                role := UserRole.donor, phoneNumber := none,
                bloodType := none,
                location := some
                  { latitude := 7, longitude := 3, address := "12 Way",
                    city := "Birr", state := "Off", zipCode := "00001",
                    country := "IE" } })
        { name := "Alice", email := "alice@mail.org", phoneNumber := none,
          address := some "14 Way", city := none, state := none,
          zipCode := none, country := none, bloodType := none }
        (Except.ok ())).updateCalls =
      [("3",
        { name := "Alice", email := "alice@mail.org", phoneNumber := none,
          location :=
            { latitude := 7, longitude := 3, address := some "14 Way",
              city := none, state := none, zipCode := none,
              country := none },
          bloodType := none })] :=
  (profileForm_validate_update
    { id := "3", name := "Old Name", email := "old@mail.org",
      role := UserRole.donor, phoneNumber := none, bloodType := none,
      location := some
        { latitude := 7, longitude := 3, address := "12 Way",
          city := "Birr", state := "Off", zipCode := "00001",
          country := "IE" } }
    { name := "Alice", email := "alice@mail.org", phoneNumber := none,
      address := some "14 Way", city := none, state := none,
      zipCode := none, country := none, bloodType := none }
    (Except.ok ())).2 (by decide)
